import Mathlib

/-!
Verification of the authenticated admin API client of agentcost-admin
(src/lib/api.ts) and its login wrapper (src/contexts/AdminAuthContext.tsx):
a shallow embedding of the token-refresh request pipeline, the admin login
flow, and the single-flight refresh guard, with proofs of the specified
properties.

The embedding models a browser execution (`window` defined, `localStorage`
available). The network is an oracle assigning an outcome to the n-th
`fetch` call of the execution; JavaScript value behaviour (truthiness,
string coercion of `undefined`, property access on `null` throwing a
TypeError) is modelled explicitly where the source relies on it.
-/

namespace AgentCostAdmin

/-- JSON values as produced by `response.json()`. `undefined` is not a JSON
value; an absent object field is `none` at its use sites. -/
inductive Json : Type where
  | null : Json
  | bool : Bool → Json
  | num : Int → Json
  | str : String → Json
  | arr : List Json → Json
  | obj : List (String × Json) → Json

/-- JavaScript property access `j.k` on a non-null value: field lookup on
objects, `undefined` (`none`) on every other JSON value. Access on
`Json.null` throws a TypeError and is handled at each use site. -/
def Json.getField : Json → String → Option Json
  | .obj fs, k => fs.lookup k
  | _, _ => none

/-- Whether a JSON value is the JSON literal `null` (on which property
access throws a TypeError). -/
def Json.isNull : Json → Bool
  | .null => true
  | _ => false

/-- JavaScript truthiness of a JSON value. -/
def Json.truthy : Json → Bool
  | .null => false
  | .bool b => b
  | .num n => n != 0
  | .str s => s != ""
  | .arr _ => true
  | .obj _ => true

/-- JavaScript truthiness of a possibly-`undefined` value. -/
def jsTruthy : Option Json → Bool
  | none => false
  | some j => j.truthy

mutual
/-- JavaScript string coercion of a JSON value (template literals, the
argument coercion of `localStorage.setItem`, `Error` messages). -/
def Json.jsStr : Json → String
  | .null => "null"
  | .bool true => "true"
  | .bool false => "false"
  | .num n => toString n
  | .str s => s
  | .arr xs => String.intercalate (",") (jsStrElems xs)
  | .obj _ => "[object Object]"

/-- Array elements under JavaScript `Array.prototype.toString`: `null`
elements render as the empty string. -/
def jsStrElems : List Json → List String
  | [] => []
  | Json.null :: js => "" :: jsStrElems js
  | j :: js => Json.jsStr j :: jsStrElems js
end

/-- JavaScript string coercion of a possibly-`undefined` value:
`undefined` coerces to the literal string "undefined". -/
def jsStrOpt : Option Json → String
  | none => "undefined"
  | some j => j.jsStr

/-- JavaScript truthiness of a `string | null` value (`if (token)` in
api.ts): `null` and the empty string are falsy. -/
def strTruthy : Option String → Bool
  | none => false
  | some s => s != ""

/-- The browser credential store: the `admin_access_token` and
`admin_refresh_token` entries of `localStorage`. The cached user-profile
blob (`admin_user`) holds no credential and no verified claim concerns its
value, so it is not modelled. -/
structure Store where
  access : Option String
  refresh : Option String
deriving DecidableEq

/-- An HTTP response as observed through `fetch`: status, status text, and
the result of `response.json()` (`none` when the body is not valid JSON,
in which case `json()` rejects with a SyntaxError). -/
structure HttpResponse where
  status : Nat
  statusText : String
  body : Option Json

/-- Outcome of one `fetch` call: a response (with any status), or a
transport-level rejection (network error). -/
inductive FetchOutcome where
  | resp (r : HttpResponse)
  | netErr

/-- `Response.ok`: status in the 2xx range. -/
def responseOk (r : HttpResponse) : Bool :=
  decide (200 ≤ r.status ∧ r.status ≤ 299)

/-- The configured base URL (`NEXT_PUBLIC_API_URL` falling back to the
local development endpoint, api.ts line 7). -/
def API_BASE : String := "http://localhost:8000"

/-- One outgoing `fetch` call as observable at the transport: target URL
and the value of the `Authorization` header, if any. -/
structure CallRecord where
  url : String
  auth : Option String
deriving DecidableEq

/-- Mutable execution state threaded through the client: the credential
store and the log of `fetch` calls issued so far. -/
structure ExecState where
  store : Store
  calls : List CallRecord

/-- The transport oracle: the outcome of the n-th `fetch` call of the
execution. -/
abbrev Transport := Nat → FetchOutcome

/-- Issue one `fetch`: log the call and take its outcome from the
oracle. -/
def doFetch (t : Transport) (s : ExecState) (url : String)
    (auth : Option String) : ExecState × FetchOutcome :=
  ({ s with calls := s.calls ++ [⟨url, auth⟩] }, t s.calls.length)

/-- Errors a client call can reject with: the typed `AdminApiError`
(api.ts lines 16-23), a TypeError from property access on `null`, a
SyntaxError from an uncaught `json()` rejection, or a propagated transport
error. -/
inductive JsError where
  | apiError (message : String) (status : Nat)
  | typeError
  | syntaxError
  | netError
deriving DecidableEq

/-- The `try` block of `doRefreshAccessToken` (api.ts lines 55-69), with
its exceptions explicit: POST to /v1/auth/refresh; on a non-2xx response
return `null`; on a 2xx response parse the body and write the
`access_token` field to the store — `localStorage.setItem` coerces a
missing field to the string "undefined" — write a rotated `refresh_token`
only when truthy, and return the `access_token` field. Exceptions: the
transport rejection, a `json()` rejection, and the TypeError of
`data.access_token` when the body is JSON `null`. -/
def doRefreshTry (t : Transport) (s : ExecState) :
    ExecState × Except JsError (Option Json) :=
  let f := doFetch t s (API_BASE ++ ("/v1/auth/refresh")) none
  match f.2 with
  | .netErr => (f.1, .error .netError)
  | .resp response =>
    if responseOk response then
      match response.body with
      | none => (f.1, .error .syntaxError)
      | some data =>
        if data.isNull then (f.1, .error .typeError)
        else
          let tok := data.getField ("access_token")
          let s2 := { f.1 with store := { f.1.store with access := some (jsStrOpt tok) } }
          let rot := data.getField ("refresh_token")
          let s3 := if jsTruthy rot
            then { s2 with store := { s2.store with refresh := some (jsStrOpt rot) } }
            else s2
          (s3, .ok tok)
    else (f.1, .ok none)

/-- `doRefreshAccessToken` (api.ts lines 51-73): return `null` when no
refresh token is stored (`!refreshToken` is also true of an empty stored
string); otherwise run the try block, catching every exception as
`null`. -/
def doRefreshAccessToken (t : Transport) (s : ExecState) :
    ExecState × Option Json :=
  if strTruthy s.store.refresh then
    match doRefreshTry t s with
    | (s1, .ok v) => (s1, v)
    | (s1, .error _) => (s1, none)
  else (s, none)

/-- `refreshAccessToken` (api.ts lines 38-49) as executed by a single
sequential call: the in-flight slot (`refreshPromise`) is empty at entry,
is filled, awaited, and cleared in the `finally`, so the call reduces to
`doRefreshAccessToken`. The concurrent behaviour of the slot is modelled
by the `sf` transition system below. -/
def refreshAccessToken (t : Transport) (s : ExecState) :
    ExecState × Option Json :=
  doRefreshAccessToken t s

/-- Lines 104-111 of `request`: on a non-2xx (possibly retried) response,
parse the error body defensively — `.catch` substitutes
`(\x7b detail: response.statusText \x7d)` when `json()` rejects — and
throw `AdminApiError(body.detail || "Request failed", response.status)`.
A body that parses to JSON `null` makes `body.detail` throw a TypeError
that nothing catches. On a 2xx response, return the parsed body
(`json()` rejects with a SyntaxError when it is not valid JSON). -/
def finishRequest (s : ExecState) (response : HttpResponse) :
    ExecState × Except JsError Json :=
  if responseOk response then
    match response.body with
    | some j => (s, .ok j)
    | none => (s, .error .syntaxError)
  else
    match response.body with
    | none =>
      (s, .error (.apiError
        (if response.statusText != "" then response.statusText
          else "Request failed") response.status))
    | some j =>
      if j.isNull then (s, .error .typeError)
      else (s, .error (.apiError
        (if jsTruthy (j.getField ("detail")) then jsStrOpt (j.getField ("detail"))
          else "Request failed") response.status))

/-- `request` (api.ts lines 75-112): read the access token, attach it as a
Bearer header when truthy, fetch; on a 401 with a token attached, perform
one refresh and, when it yields a truthy token, one retry with the new
Bearer header; finish via the shared error/success tail. `optAuth` is an
`Authorization` entry supplied by the caller inside `options.headers`
(spread into the header object before the token is attached); no call site
in this repository supplies one. -/
def request (t : Transport) (s : ExecState) (path : String)
    (optAuth : Option String) : ExecState × Except JsError Json :=
  let token := s.store.access
  let auth := if strTruthy token then some ("Bearer " ++ token.getD (""))
    else optAuth
  let f1 := doFetch t s (API_BASE ++ path) auth
  match f1.2 with
  | .netErr => (f1.1, .error .netError)
  | .resp response =>
    if response.status = 401 ∧ strTruthy token = true then
      let rres := refreshAccessToken t f1.1
      if jsTruthy rres.2 then
        let auth2 := some ("Bearer " ++ jsStrOpt rres.2)
        let f2 := doFetch t rres.1 (API_BASE ++ path) auth2
        match f2.2 with
        | .netErr => (f2.1, .error .netError)
        | .resp response2 => finishRequest f2.1 response2
      else finishRequest rres.1 response
    else finishRequest f1.1 response

/-- `adminLogin` (api.ts lines 118-170). Step 1: POST /v1/auth/login; on a
non-2xx response parse the body with `detail` defaulting to "Login failed"
when `json()` rejects, then map 401/400 to a fixed invalid-credentials
message and 403 to a fixed account-disabled message, and otherwise throw
`AdminApiError(body.detail || "Authentication server unavailable. Try
again later.", status)` — where `body.detail` throws a TypeError when the
body parsed to JSON `null`. Step 2: on a 2xx response, parse the body
(`data.access_token` throws on JSON `null`) and GET /v1/admin/auth/verify
with that token; a non-2xx verify response throws a fixed 403
access-denied error. Writes nothing to the credential store. -/
def adminLogin (t : Transport) (s : ExecState) (email password : String) :
    ExecState × Except JsError Json :=
  let f1 := doFetch t s (API_BASE ++ ("/v1/auth/login")) none
  match f1.2 with
  | .netErr => (f1.1, .error .netError)
  | .resp res =>
    if responseOk res then
      match res.body with
      | none => (f1.1, .error .syntaxError)
      | some data =>
        if data.isNull then (f1.1, .error .typeError)
        else
          let f2 := doFetch t f1.1 (API_BASE ++ ("/v1/admin/auth/verify"))
            (some ("Bearer " ++ jsStrOpt (data.getField ("access_token"))))
          match f2.2 with
          | .netErr => (f2.1, .error .netError)
          | .resp vres =>
            if responseOk vres then (f2.1, .ok data)
            else (f2.1, .error (.apiError
              ("Access denied. This account does not have admin privileges.") 403))
    else
      if res.status = 401 ∨ res.status = 400 then
        (f1.1, .error (.apiError ("Invalid email or password.") res.status))
      else if res.status = 403 then
        (f1.1, .error (.apiError
          ("This account has been disabled. Contact your administrator.") 403))
      else
        match res.body with
        | none => (f1.1, .error (.apiError ("Login failed") res.status))
        | some j =>
          if j.isNull then (f1.1, .error .typeError)
          else (f1.1, .error (.apiError
            (if jsTruthy (j.getField ("detail")) then jsStrOpt (j.getField ("detail"))
              else "Authentication server unavailable. Try again later.") res.status))

/-- `login` of AdminAuthContext (lines 77-95): await `adminLogin`, then
persist the returned tokens (`localStorage.setItem` coerces a missing
field to the string "undefined"). A rejection of `adminLogin` propagates
before any store write. The `admin_user` profile write and the router
navigation fall outside the modelled store. -/
def ctxLogin (t : Transport) (s : ExecState) (email password : String) :
    ExecState × Except JsError Json :=
  match adminLogin t s email password with
  | (s1, .error e) => (s1, .error e)
  | (s1, .ok data) =>
    ({ s1 with store :=
        { access := some (jsStrOpt (data.getField ("access_token"))),
          refresh := some (jsStrOpt (data.getField ("refresh_token"))) } },
      .ok data)

/-! The single-flight refresh guard under cooperative concurrency.

`refreshAccessToken` (api.ts lines 36-49) memoizes the promise of
`doRefreshAccessToken` in the module variable `refreshPromise`, which the
`finally` clears once the refresh settles. The browser interleaves the
logical call chains only at `await` points, so the check-and-set of lines
39-43 is atomic. The transition system below models exactly this state:
each interleaving of K concurrent callers is a schedule of events.
-/

/-- Phase of one `request` caller with respect to the single-flight
refresh guard: `ready` — it has observed a 401 with a token attached and
is about to call `refreshAccessToken`; `waiting g` — it holds the shared
in-flight promise of refresh generation `g` and awaits it; `done g r` —
it has resumed with that promise's resolved value `r`. -/
inductive TaskPhase where
  | ready
  | waiting (g : Nat)
  | done (g : Nat) (r : Option String)
deriving DecidableEq

/-- Global state of the single-flight guard. `slot` is the
`refreshPromise` module variable: `some g` while the refresh of
generation `g` is in flight. `results` lists the resolved values of the
settled generations in order (generation `g` settles to `results[g]`).
`calls` counts the POSTs made to /v1/auth/refresh. `rtPresent` is whether
a refresh token is stored when a `doRefreshAccessToken` run starts:
without one it resolves without contacting the endpoint (api.ts lines
52-53). -/
structure SFState where
  slot : Option Nat
  results : List (Option String)
  calls : Nat
  rtPresent : Bool
  tasks : List TaskPhase
deriving DecidableEq

/-- Scheduler events. `enter i`: caller `i` runs the synchronous body of
`refreshAccessToken` (lines 39-43) — it joins the in-flight promise when
the slot is filled, otherwise it starts `doRefreshAccessToken` (which
issues its POST exactly when a refresh token is stored) and fills the
slot. `settle r`: the in-flight refresh resolves with `r` and the
`finally` clears the slot (lines 44-48). `resume i`: an awaiting caller's
continuation runs, receiving the settled value of the promise it
holds. -/
inductive SFEvent where
  | enter (i : Nat)
  | settle (r : Option String)
  | resume (i : Nat)
deriving DecidableEq

/-- One scheduler step; `none` when the event is not enabled in `s`. -/
def sfStep (s : SFState) : SFEvent → Option SFState
  | .enter i =>
    match s.tasks[i]? with
    | some .ready =>
      match s.slot with
      | some g => some { s with tasks := s.tasks.set i (.waiting g) }
      | none => some { s with
          slot := some s.results.length,
          calls := s.calls + (if s.rtPresent then 1 else 0),
          tasks := s.tasks.set i (.waiting s.results.length) }
    | _ => none
  | .settle r =>
    match s.slot with
    | some _ => some { s with slot := none, results := s.results ++ [r] }
    | none => none
  | .resume i =>
    match s.tasks[i]? with
    | some (.waiting g) =>
      match s.results[g]? with
      | some r => some { s with tasks := s.tasks.set i (.done g r) }
      | none => none
    | _ => none

/-- Run a schedule of events from a state. -/
def sfRun (s : SFState) : List SFEvent → Option SFState
  | [] => some s
  | e :: es =>
    match sfStep s e with
    | some s1 => sfRun s1 es
    | none => none

/-- Initial state for `K` concurrent callers that have each received a
401 while no refresh was in flight, with a refresh token stored. -/
def sfInit (K : Nat) : SFState :=
  { slot := none, results := [], calls := 0, rtPresent := true,
    tasks := List.replicate K .ready }

/-- Invariant holding from the initial state up to the first settle, under
enter events only: before anyone entered, the guard is idle; once the
first caller entered, generation 0 is in flight, exactly one POST has been
made, and every caller is still ready or awaits generation 0. -/
def SFInv1 (K : Nat) (s : SFState) : Prop :=
  s.results = [] ∧ s.rtPresent = true ∧ s.tasks.length = K ∧
  ((s.slot = none ∧ s.calls = 0 ∧ ∀ p ∈ s.tasks, p = TaskPhase.ready) ∨
   (s.slot = some 0 ∧ s.calls = 1 ∧
     ∀ p ∈ s.tasks, p = TaskPhase.ready ∨ p = TaskPhase.waiting 0))

/-- Invariant holding after the first settle when by then every caller had
entered: the guard is idle, exactly one POST was ever made, generation 0
settled to `r`, and every caller awaits generation 0 or is done with value
`r`. No event can start a second refresh from here. -/
def SFInv3 (r : Option String) (s : SFState) : Prop :=
  s.slot = none ∧ s.results = [r] ∧ s.calls = 1 ∧
  ∀ p ∈ s.tasks, p = TaskPhase.waiting 0 ∨ p = TaskPhase.done 0 r

/-- The conditions under which the refresh algorithm fails, as listed by
the specification: no (truthy) stored refresh token, a transport error on
the refresh call, a non-2xx refresh response, or a refresh body that is
not valid JSON. `n` is the position of the refresh call in the fetch
sequence. -/
def refreshFails (t : Transport) (rt : Option String) (n : Nat) : Prop :=
  strTruthy rt = false ∨ t n = FetchOutcome.netErr ∨
    ∃ r, t n = FetchOutcome.resp r ∧ (responseOk r = false ∨ r.body = none)

/-- C2 — counterexample to the claim as stated: with a stored token, a
401, a successful refresh, and a retry that returns 401 with a body whose
JSON is the literal `null`, `request` rejects with a TypeError (from
`body.detail` on the parsed null body), not with `ApiError(401)`. -/
def tRetryNull : Transport := fun n =>
  match n with
  | 0 => .resp ⟨401, ("Unauthorized"), none⟩
  | 1 => .resp ⟨200, ("OK"), some (.obj [(("access_token"), .str ("T2"))])⟩
  | _ => .resp ⟨401, ("Unauthorized"), some .null⟩

/-- Witness for C2 (amended) at a concrete execution. -/
def tRetry401 : Transport := fun n =>
  match n with
  | 0 => .resp ⟨401, ("Unauthorized"), none⟩
  | 1 => .resp ⟨200, ("OK"), some (.obj [(("access_token"), .str ("T2"))])⟩
  | _ => .resp ⟨401, ("Unauthorized"), none⟩

/-- C3 — counterexample input: stored access token, no stored refresh
token, and an original 401 whose body is the JSON literal `null`. -/
def tNoRefreshNull : Transport := fun _ =>
  .resp ⟨401, ("Unauthorized"), some .null⟩

/-- Witness transport for C3: original call 401 with a non-JSON body, no
refresh token stored. -/
def tNoRefresh401 : Transport := fun _ =>
  .resp ⟨401, ("Unauthorized"), none⟩

/-- C4 — counterexample input: no stored access token, a stored refresh
token, 401 response with JSON-`null` body. -/
def tAnonNull : Transport := fun _ =>
  .resp ⟨401, ("Unauthorized"), some .null⟩

/-- Witness transport for C4: anonymous 401 with a non-JSON body. -/
def tAnon401 : Transport := fun _ => .resp ⟨401, ("Unauthorized"), none⟩

/-- C5 — failing input: a stored refresh token and a refresh endpoint
answering 200 with the valid JSON body `\x7b\x7d`, which contains no
access token. -/
def tRefreshEmptyBody : Transport := fun _ => .resp ⟨200, ("OK"), some (.obj [])⟩

/-- Witness transport for C6: 2xx login, non-2xx verify. -/
def tVerifyFail : Transport := fun n =>
  match n with
  | 0 => .resp ⟨200, ("OK"), some (.obj [(("access_token"), .str ("A"))])⟩
  | _ => .resp ⟨403, ("Forbidden"), some (.obj [])⟩

/-- C7 — counterexample input: the credential-check endpoint answers 500
with a JSON body carrying a truthy `detail`. -/
def tLoginDetail : Transport := fun _ =>
  .resp ⟨500, ("Internal Server Error"), some (.obj [(("detail"), .str ("boom"))])⟩

/-- Witness transport for C7: the spec's concrete scenario, a 401 from the
login endpoint. -/
def tLogin401 : Transport := fun _ => .resp ⟨401, ("Unauthorized"), none⟩

/-- C8 — counterexample input: a 500 whose body is the valid JSON object
`\x7b\x7d`, which lacks a `detail` field. -/
def tNoDetail : Transport := fun _ =>
  .resp ⟨500, ("Internal Server Error"), some (.obj [])⟩

/-- C9 — the spec's concrete refresh-retry scenario, as a transport: 401,
then a successful refresh issuing token "T2", then 200 with
`\x7bitems: [], total: 0\x7d`. -/
def tRefreshRetryOk : Transport := fun n =>
  match n with
  | 0 => .resp ⟨401, ("Unauthorized"), none⟩
  | 1 => .resp ⟨200, ("OK"), some (.obj [(("access_token"), .str ("T2"))])⟩
  | _ => .resp ⟨200, ("OK"),
      some (.obj [(("items"), .arr []), (("total"), .num 0)])⟩

/-- Witness transport for C10: 401, successful refresh to "T2", retry
fails with 500. -/
def tRetryFail : Transport := fun n =>
  match n with
  | 0 => .resp ⟨401, ("Unauthorized"), none⟩
  | 1 => .resp ⟨200, ("OK"), some (.obj [(("access_token"), .str ("T2"))])⟩
  | _ => .resp ⟨500, ("Internal Server Error"), none⟩

/-! Proofs. -/

lemma sfRun_append (l1 l2 : List SFEvent) :
    ∀ s : SFState, sfRun s (l1 ++ l2) =
      (sfRun s l1).bind (fun s1 => sfRun s1 l2) := by
  induction l1 with
  | nil => intro s; simp [sfRun]
  | cons e es ih =>
    intro s
    simp only [List.cons_append, sfRun]
    cases h : sfStep s e with
    | none => simp
    | some s1 => simpa using ih s1

lemma sfRun_pres (P : SFState → Prop) (Q : SFEvent → Prop)
    (hstep : ∀ s e s1, P s → Q e → sfStep s e = some s1 → P s1) :
    ∀ (es : List SFEvent) (s s1 : SFState),
      (∀ e ∈ es, Q e) → P s → sfRun s es = some s1 → P s1 := by
  intro es
  induction es with
  | nil =>
    intro s s1 _ hP hr
    simp only [sfRun] at hr
    injection hr with h
    exact h ▸ hP
  | cons e es ih =>
    intro s s1 hQ hP hr
    simp only [sfRun] at hr
    cases h : sfStep s e with
    | none => rw [h] at hr; cases hr
    | some s2 =>
      rw [h] at hr
      exact ih s2 s1 (fun e2 he2 => hQ e2 (List.mem_cons_of_mem e he2))
        (hstep s e s2 hP (hQ e (List.mem_cons_self e es)) h) hr

lemma sfStep_nonReady {s s1 : SFState} {e : SFEvent} {i : Nat}
    (h : sfStep s e = some s1) (hnr : s.tasks[i]? ≠ some TaskPhase.ready) :
    s1.tasks[i]? ≠ some TaskPhase.ready := by
  cases e with
  | enter j =>
    simp only [sfStep] at h
    split at h
    next hj =>
      rcases eq_or_ne j i with rfl | hne
      · exact absurd hj hnr
      · split at h <;>
          (injection h with h; subst h;
           simpa [List.getElem?_set_ne hne] using hnr)
    next => cases h
  | settle r =>
    simp only [sfStep] at h
    split at h
    next => injection h with h; subst h; exact hnr
    next => cases h
  | resume j =>
    simp only [sfStep] at h
    split at h
    next g hj =>
      split at h
      next r2 hr2 =>
        injection h with h; subst h
        rcases eq_or_ne j i with rfl | hne
        · have hlt : j < s.tasks.length := (List.getElem?_eq_some.mp hj).choose
          simp [List.getElem?_set_eq_of_lt _ hlt]
        · simpa [List.getElem?_set_ne hne] using hnr
      next => cases h
    next => cases h

lemma sfStep_enter_done {s s1 : SFState} {i : Nat}
    (h : sfStep s (SFEvent.enter i) = some s1) :
    s1.tasks[i]? ≠ some TaskPhase.ready := by
  simp only [sfStep] at h
  split at h
  next hj =>
    have hlt : i < s.tasks.length := (List.getElem?_eq_some.mp hj).choose
    split at h <;>
      (injection h with h; subst h;
       simp [List.getElem?_set_eq_of_lt _ hlt])
  next => cases h

lemma sfRun_enter_nonReady :
    ∀ (es : List SFEvent) (s s1 : SFState) (i : Nat),
      sfRun s es = some s1 → SFEvent.enter i ∈ es →
      s1.tasks[i]? ≠ some TaskPhase.ready := by
  intro es
  induction es with
  | nil => intro s s1 i _ hm; cases hm
  | cons e es ih =>
    intro s s1 i hr hm
    simp only [sfRun] at hr
    cases h : sfStep s e with
    | none => rw [h] at hr; cases hr
    | some s2 =>
      rw [h] at hr
      rcases List.mem_cons.mp hm with rfl | hm2
      · exact sfRun_pres (fun st => st.tasks[i]? ≠ some TaskPhase.ready)
          (fun _ => True)
          (fun a e2 b hP _ hs => sfStep_nonReady hs hP)
          es s2 s1 (fun _ _ => trivial) (sfStep_enter_done h) hr
      · exact ih s2 s1 i hr hm2

lemma sfInv1_init (K : Nat) : SFInv1 K (sfInit K) := by
  refine ⟨rfl, rfl, List.length_replicate K TaskPhase.ready,
    Or.inl ⟨rfl, rfl, ?_⟩⟩
  intro p hp
  exact (List.mem_replicate.mp hp).2

lemma sfInv1_enter {K : Nat} {s s1 : SFState} {i : Nat} (hI : SFInv1 K s)
    (h : sfStep s (SFEvent.enter i) = some s1) : SFInv1 K s1 := by
  obtain ⟨hres, hrt, hlen, hcase⟩ := hI
  simp only [sfStep] at h
  split at h
  next hj =>
    split at h
    next g hg =>
      injection h with h; subst h
      rcases hcase with ⟨hslot, _, _⟩ | ⟨hslot, hcalls, hall⟩
      · rw [hslot] at hg; cases hg
      · rw [hslot] at hg; injection hg with hg
        refine ⟨hres, hrt, by simpa using hlen, Or.inr ⟨hslot, hcalls, ?_⟩⟩
        intro p hp
        rcases List.mem_or_eq_of_mem_set hp with hp2 | rfl
        · exact hall p hp2
        · exact Or.inr (by rw [hg])
    next hg =>
      injection h with h; subst h
      rcases hcase with ⟨hslot, hcalls, hall⟩ | ⟨hslot, _, _⟩
      · refine ⟨hres, hrt, by simpa using hlen, Or.inr ⟨?_, ?_, ?_⟩⟩
        · simp [hres]
        · simp [hcalls, hrt]
        · intro p hp
          rcases List.mem_or_eq_of_mem_set hp with hp2 | rfl
          · exact Or.inl (hall p hp2)
          · exact Or.inr (by rw [hres]; rfl)
      · rw [hslot] at hg; cases hg
  next => cases h

lemma sfInv3_step {r : Option String} {s s1 : SFState} {e : SFEvent}
    (hI : SFInv3 r s) (h : sfStep s e = some s1) : SFInv3 r s1 := by
  obtain ⟨hslot, hres, hcalls, hall⟩ := hI
  cases e with
  | enter i =>
    exfalso
    simp only [sfStep] at h
    split at h
    next hj =>
      have hmem : TaskPhase.ready ∈ s.tasks := List.mem_iff_getElem?.mpr ⟨i, hj⟩
      rcases hall _ hmem with h1 | h1 <;> cases h1
    next => cases h
  | settle r2 =>
    exfalso
    simp only [sfStep] at h
    split at h
    next g hg => rw [hslot] at hg; cases hg
    next => cases h
  | resume i =>
    simp only [sfStep] at h
    split at h
    next g hj =>
      split at h
      next r2 hr2 =>
        injection h with h; subst h
        have hmem : TaskPhase.waiting g ∈ s.tasks := List.mem_iff_getElem?.mpr ⟨i, hj⟩
        have hg0 : g = 0 := by
          rcases hall _ hmem with h1 | h1
          · injection h1
          · cases h1
        subst hg0
        rw [hres] at hr2
        have hr2v : r2 = r := by
          simp at hr2
          exact hr2.symm
        subst hr2v
        refine ⟨hslot, hres, hcalls, ?_⟩
        intro p hp
        rcases List.mem_or_eq_of_mem_set hp with hp2 | rfl
        · exact hall p hp2
        · exact Or.inr rfl
      next => cases h
    next => cases h

/-- C1: Single-flight refresh. In every schedule in which K concurrent
`request` callers each receive a 401 and call `refreshAccessToken` before
the in-flight refresh settles (`es1` consists of their `enter` events,
covering every caller, and precedes the first `settle`), and in which
every caller eventually resumes, exactly one POST to the refresh endpoint
/v1/auth/refresh is made, and every caller observes the same resolved
value `r` of the single shared refresh; in particular a caller entering
while a refresh is in flight joins it instead of starting a new one. -/
theorem single_flight_refresh (K : Nat) (es1 es2 : List SFEvent)
    (r : Option String) (s : SFState)
    (hrun : sfRun (sfInit K) (es1 ++ SFEvent.settle r :: es2) = some s)
    (hents : ∀ e ∈ es1, ∃ i, e = SFEvent.enter i)
    (hall : ∀ i, i < K → SFEvent.enter i ∈ es1)
    (hdone : ∀ p ∈ s.tasks, ∃ g v, p = TaskPhase.done g v) :
    s.calls = 1 ∧ ∀ p ∈ s.tasks, p = TaskPhase.done 0 r := by
  rw [sfRun_append] at hrun
  cases hA : sfRun (sfInit K) es1 with
  | none => rw [hA] at hrun; cases hrun
  | some sA =>
    rw [hA] at hrun
    simp only [Option.some_bind] at hrun
    simp only [sfRun] at hrun
    cases hB : sfStep sA (SFEvent.settle r) with
    | none => rw [hB] at hrun; cases hrun
    | some sB =>
      rw [hB] at hrun
      have hI1 : SFInv1 K sA := by
        refine sfRun_pres (SFInv1 K) (fun e => ∃ i, e = SFEvent.enter i)
          ?_ es1 (sfInit K) sA hents (sfInv1_init K) hA
        intro s0 e s2 hP hQ hs
        rcases hQ with ⟨i, rfl⟩
        exact sfInv1_enter hP hs
      obtain ⟨hres, hrt, hlen, hcase⟩ := hI1
      have hBs : ∃ g, sA.slot = some g ∧
          sB = { sA with slot := none, results := sA.results ++ [r] } := by
        simp only [sfStep] at hB
        split at hB
        next g hg => exact ⟨g, hg, (Option.some.inj hB).symm⟩
        next => cases hB
      obtain ⟨g, hg, hBdef⟩ := hBs
      rcases hcase with ⟨hslot, _, _⟩ | ⟨hslot, hcalls, hrw⟩
      · rw [hslot] at hg; cases hg
      · have hwait : ∀ p ∈ sA.tasks, p = TaskPhase.waiting 0 := by
          intro p hp
          rcases hrw p hp with h1 | h1
          · exfalso
            rcases List.mem_iff_getElem?.mp hp with ⟨n, hn⟩
            have hnK : n < K := hlen ▸ (List.getElem?_eq_some.mp hn).choose
            exact sfRun_enter_nonReady es1 (sfInit K) sA n hA (hall n hnK)
              (by rw [hn, h1])
          · exact h1
        have hI3 : SFInv3 r sB := by
          rw [hBdef]
          exact ⟨rfl, by rw [hres]; rfl, hcalls, fun p hp => Or.inl (hwait p hp)⟩
        have hI3s : SFInv3 r s :=
          sfRun_pres (SFInv3 r) (fun _ => True)
            (fun a e b hP _ hs => sfInv3_step hP hs)
            es2 sB s (fun _ _ => trivial) hI3 hrun
        obtain ⟨_, _, hc, hall3⟩ := hI3s
        refine ⟨hc, ?_⟩
        intro p hp
        rcases hall3 p hp with h1 | h1
        · rcases hdone p hp with ⟨g2, v, rfl⟩
          cases h1
        · exact h1

/-- Witness for C1: two concurrent callers, both entering before the
refresh settles with a new token; one POST is made and both observe the
same token. -/
theorem single_flight_refresh_witness :
    ∃ s, sfRun (sfInit 2)
        ([SFEvent.enter 0, SFEvent.enter 1] ++
          SFEvent.settle (some ("tok2")) :: [SFEvent.resume 0, SFEvent.resume 1]) =
        some s ∧
      s.calls = 1 ∧ ∀ p ∈ s.tasks, p = TaskPhase.done 0 (some ("tok2")) := by
  refine ⟨_, rfl, single_flight_refresh 2 [SFEvent.enter 0, SFEvent.enter 1]
    [SFEvent.resume 0, SFEvent.resume 1] (some ("tok2")) _ rfl ?_ ?_ ?_⟩
  · intro e he
    rcases List.mem_cons.mp he with rfl | he2
    · exact ⟨0, rfl⟩
    · rcases List.mem_cons.mp he2 with rfl | he3
      · exact ⟨1, rfl⟩
      · cases he3
  · decide
  · intro p hp
    rcases List.mem_cons.mp hp with rfl | hp2
    · exact ⟨0, some ("tok2"), rfl⟩
    · rcases List.mem_cons.mp hp2 with rfl | hp3
      · exact ⟨0, some ("tok2"), rfl⟩
      · cases hp3

lemma Json.isNull_eq_false {d : Json} (h : d ≠ Json.null) :
    d.isNull = false := by
  cases d <;> first | exact absurd rfl h | rfl

lemma finishRequest_fst (s : ExecState) (r : HttpResponse) :
    (finishRequest s r).1 = s := by
  unfold finishRequest
  split <;> split <;> (try split) <;> rfl

lemma finishRequest_err (s : ExecState) (r : HttpResponse)
    (hok : responseOk r = false) (hnn : r.body ≠ some Json.null) :
    ∃ m, finishRequest s r = (s, Except.error (JsError.apiError m r.status)) := by
  unfold finishRequest
  rw [hok]
  cases hb : r.body with
  | none => exact ⟨_, rfl⟩
  | some j =>
    have hjn : j ≠ Json.null := fun hx => hnn (by rw [hb, hx])
    simp only [Bool.false_eq_true, if_false, Json.isNull_eq_false hjn]
    exact ⟨_, rfl⟩

lemma doRefresh_ok (t : Transport) (s : ExecState) (rr : HttpResponse)
    (d : Json)
    (hrt : strTruthy s.store.refresh = true)
    (h : t s.calls.length = FetchOutcome.resp rr)
    (hok : responseOk rr = true) (hb : rr.body = some d)
    (hd : d ≠ Json.null) :
    ∃ rt2, doRefreshAccessToken t s =
      (⟨⟨some (jsStrOpt (d.getField ("access_token"))), rt2⟩,
        s.calls ++ [⟨API_BASE ++ ("/v1/auth/refresh"), none⟩]⟩,
       d.getField ("access_token")) := by
  cases hjt : jsTruthy (d.getField ("refresh_token")) with
  | true =>
    exact ⟨some (jsStrOpt (d.getField ("refresh_token"))), by
      simp [doRefreshAccessToken, doRefreshTry, doFetch, hrt, h, hok, hb,
        Json.isNull_eq_false hd, hjt]⟩
  | false =>
    exact ⟨s.store.refresh, by
      simp [doRefreshAccessToken, doRefreshTry, doFetch, hrt, h, hok, hb,
        Json.isNull_eq_false hd, hjt]⟩

lemma refreshAccessToken_fails (t : Transport) (s : ExecState)
    (h : refreshFails t s.store.refresh s.calls.length) :
    (refreshAccessToken t s).2 = none := by
  rcases h with h | h | ⟨r, hr, h2 | h2⟩ <;>
    cases hst : strTruthy s.store.refresh <;>
      (try cases hro : responseOk r) <;>
        simp_all [refreshAccessToken, doRefreshAccessToken, doRefreshTry, doFetch]

lemma refreshAccessToken_fails_store (t : Transport) (s : ExecState)
    (h : refreshFails t s.store.refresh s.calls.length) :
    (refreshAccessToken t s).1.store = s.store := by
  rcases h with h | h | ⟨r, hr, h2 | h2⟩ <;>
    cases hst : strTruthy s.store.refresh <;>
      (try cases hro : responseOk r) <;>
        simp_all [refreshAccessToken, doRefreshAccessToken, doRefreshTry, doFetch]

lemma request_retry (t : Transport) (st : Store) (path : String)
    (r1 rr r3 : HttpResponse) (d : Json)
    (htok : strTruthy st.access = true)
    (h0 : t 0 = FetchOutcome.resp r1) (hs1 : r1.status = 401)
    (hrt : strTruthy st.refresh = true)
    (h1 : t 1 = FetchOutcome.resp rr) (hok1 : responseOk rr = true)
    (hb1 : rr.body = some d) (hd : d ≠ Json.null)
    (htk : jsTruthy (d.getField ("access_token")) = true)
    (h2 : t 2 = FetchOutcome.resp r3) :
    ∃ rt2, request t ⟨st, []⟩ path none =
      finishRequest
        ⟨⟨some (jsStrOpt (d.getField ("access_token"))), rt2⟩,
         [⟨API_BASE ++ path, some ("Bearer " ++ st.access.getD (""))⟩,
          ⟨API_BASE ++ ("/v1/auth/refresh"), none⟩,
          ⟨API_BASE ++ path,
            some ("Bearer " ++ jsStrOpt (d.getField ("access_token")))⟩]⟩
        r3 := by
  obtain ⟨rt2, hre⟩ := doRefresh_ok t
    ⟨st, [⟨API_BASE ++ path, some ("Bearer " ++ st.access.getD (""))⟩]⟩
    rr d hrt h1 hok1 hb1 hd
  refine ⟨rt2, ?_⟩
  simp [request, doFetch, refreshAccessToken, htok, hs1, h0, h2, htk, hre]

/-- C2 — counterexample: the claim "the call raises ApiError with status
401 taken from the retried response" fails at this input; the rejection is
a TypeError and is no `AdminApiError` at all. -/
theorem at_most_one_retry_cex :
    (request tRetryNull ⟨⟨some ("T1"), some ("R1")⟩, []⟩
        ("/v1/admin/users") none).2 = Except.error JsError.typeError ∧
    ∀ m k, (request tRetryNull ⟨⟨some ("T1"), some ("R1")⟩, []⟩
        ("/v1/admin/users") none).2 ≠ Except.error (JsError.apiError m k) := by
  have h1 : (request tRetryNull ⟨⟨some ("T1"), some ("R1")⟩, []⟩
      ("/v1/admin/users") none).2 = Except.error JsError.typeError := rfl
  refine ⟨h1, ?_⟩
  intro m k h
  rw [h1] at h
  simp at h

/-- C2 (amended): for every request call that receives a 401 with a token
attached, obtains a new access token via a successful refresh, and whose
single retry also receives a 401, the call performs no second refresh and
no second retry — exactly three fetches go out, of which only the second
targets /v1/auth/refresh — and it raises ApiError with status 401 taken
from the retried response, provided the retried response's body is not the
JSON literal `null` (in that corner an uncaught TypeError from
`body.detail` is raised instead, still with no second refresh or
retry). -/
theorem at_most_one_retry (t : Transport) (st : Store) (path : String)
    (r1 rr r3 : HttpResponse) (d : Json)
    (htok : strTruthy st.access = true)
    (h0 : t 0 = FetchOutcome.resp r1) (hs1 : r1.status = 401)
    (hrt : strTruthy st.refresh = true)
    (h1 : t 1 = FetchOutcome.resp rr) (hok1 : responseOk rr = true)
    (hb1 : rr.body = some d) (hd : d ≠ Json.null)
    (htk : jsTruthy (d.getField ("access_token")) = true)
    (h2 : t 2 = FetchOutcome.resp r3) (hs3 : r3.status = 401)
    (hnn : r3.body ≠ some Json.null) :
    (∃ m, (request t ⟨st, []⟩ path none).2 =
      Except.error (JsError.apiError m 401)) ∧
    (request t ⟨st, []⟩ path none).1.calls.map CallRecord.url =
      [API_BASE ++ path, API_BASE ++ ("/v1/auth/refresh"), API_BASE ++ path] := by
  obtain ⟨rt2, hreq⟩ := request_retry t st path r1 rr r3 d htok h0 hs1 hrt
    h1 hok1 hb1 hd htk h2
  have hok3 : responseOk r3 = false := by simp [responseOk, hs3]
  obtain ⟨m, hfin⟩ := finishRequest_err
    ⟨⟨some (jsStrOpt (d.getField ("access_token"))), rt2⟩,
     [⟨API_BASE ++ path, some ("Bearer " ++ st.access.getD (""))⟩,
      ⟨API_BASE ++ ("/v1/auth/refresh"), none⟩,
      ⟨API_BASE ++ path,
        some ("Bearer " ++ jsStrOpt (d.getField ("access_token")))⟩]⟩
    r3 hok3 hnn
  constructor
  · exact ⟨m, by rw [hreq, hfin, hs3]⟩
  · rw [hreq, finishRequest_fst]
    rfl

/-- Witness for C2: concrete 401/refresh/retry-401 run satisfying every
hypothesis of the amended theorem. -/
theorem at_most_one_retry_witness :
    (∃ m, (request tRetry401 ⟨⟨some ("T1"), some ("R1")⟩, []⟩
      ("/v1/admin/users") none).2 = Except.error (JsError.apiError m 401)) ∧
    (request tRetry401 ⟨⟨some ("T1"), some ("R1")⟩, []⟩
      ("/v1/admin/users") none).1.calls.map CallRecord.url =
      [API_BASE ++ ("/v1/admin/users"), API_BASE ++ ("/v1/auth/refresh"),
       API_BASE ++ ("/v1/admin/users")] :=
  at_most_one_retry tRetry401 ⟨some ("T1"), some ("R1")⟩ ("/v1/admin/users")
    ⟨401, ("Unauthorized"), none⟩
    ⟨200, ("OK"), some (.obj [(("access_token"), .str ("T2"))])⟩
    ⟨401, ("Unauthorized"), none⟩
    (.obj [(("access_token"), .str ("T2"))])
    rfl rfl rfl rfl rfl rfl rfl
    (fun h => Json.noConfusion h) rfl rfl rfl
    (fun h => Option.noConfusion h)

lemma request_refresh_fail (t : Transport) (st : Store) (path : String)
    (r1 : HttpResponse)
    (htok : strTruthy st.access = true)
    (h0 : t 0 = FetchOutcome.resp r1) (hs1 : r1.status = 401)
    (hf : refreshFails t st.refresh 1) :
    request t ⟨st, []⟩ path none =
      finishRequest
        (refreshAccessToken t
          ⟨st, [⟨API_BASE ++ path,
            some ("Bearer " ++ st.access.getD (""))⟩]⟩).1 r1 := by
  have hn : (refreshAccessToken t
      ⟨st, [⟨API_BASE ++ path, some ("Bearer " ++ st.access.getD (""))⟩]⟩).2 =
      none := refreshAccessToken_fails t _ hf
  simp [request, doFetch, htok, hs1, h0, hn, jsTruthy]

/-- C3 — counterexample: the claim "in that case request raises the
original 401 as ApiError with status 401" fails here: the refresh token is
absent (so the refresh resolves to absent as claimed), but `request`
rejects with a TypeError from `body.detail` on the parsed null body, not
with any `AdminApiError`. -/
theorem refresh_failure_degrades_cex :
    (request tNoRefreshNull ⟨⟨some ("T1"), none⟩, []⟩
        ("/v1/admin/users") none).2 = Except.error JsError.typeError ∧
    ∀ m k, (request tNoRefreshNull ⟨⟨some ("T1"), none⟩, []⟩
        ("/v1/admin/users") none).2 ≠ Except.error (JsError.apiError m k) := by
  have h1 : (request tNoRefreshNull ⟨⟨some ("T1"), none⟩, []⟩
      ("/v1/admin/users") none).2 = Except.error JsError.typeError := rfl
  refine ⟨h1, ?_⟩
  intro m k h
  rw [h1] at h
  simp at h

/-- C3 (amended): `refreshAccessToken` never raises — whenever the stored
refresh token is absent, the refresh endpoint returns non-2xx, the
transport fails, or the refresh body is not valid JSON, it resolves to
absent (`none`); and in that case a `request` that received a 401 with a
token attached surfaces the original 401 as ApiError with status 401,
provided the original response's body is not the JSON literal `null` (in
that corner an uncaught TypeError from `body.detail` escapes instead of
an ApiError). -/
theorem refresh_failure_degrades (t : Transport) (st : Store)
    (path : String) (r1 : HttpResponse) :
    (∀ s : ExecState, refreshFails t s.store.refresh s.calls.length →
      (refreshAccessToken t s).2 = none) ∧
    (strTruthy st.access = true → t 0 = FetchOutcome.resp r1 →
      r1.status = 401 → refreshFails t st.refresh 1 →
      r1.body ≠ some Json.null →
      ∃ m, (request t ⟨st, []⟩ path none).2 =
        Except.error (JsError.apiError m 401)) := by
  constructor
  · exact fun s h => refreshAccessToken_fails t s h
  · intro htok h0 hs1 hf hnn
    have hreq := request_refresh_fail t st path r1 htok h0 hs1 hf
    have hok1 : responseOk r1 = false := by simp [responseOk, hs1]
    obtain ⟨m, hfin⟩ := finishRequest_err _ r1 hok1 hnn
    exact ⟨m, by rw [hreq, hfin, hs1]⟩

/-- Witness for C3: with no stored refresh token the refresh resolves to
absent, and the original 401 is surfaced as ApiError(401). -/
theorem refresh_failure_degrades_witness :
    (refreshAccessToken tNoRefresh401 ⟨⟨some ("T1"), none⟩, []⟩).2 = none ∧
    ∃ m, (request tNoRefresh401 ⟨⟨some ("T1"), none⟩, []⟩
      ("/v1/admin/users") none).2 = Except.error (JsError.apiError m 401) :=
  ⟨(refresh_failure_degrades tNoRefresh401 ⟨some ("T1"), none⟩
      ("/v1/admin/users") ⟨401, ("Unauthorized"), none⟩).1
    ⟨⟨some ("T1"), none⟩, []⟩ (Or.inl rfl),
   (refresh_failure_degrades tNoRefresh401 ⟨some ("T1"), none⟩
      ("/v1/admin/users") ⟨401, ("Unauthorized"), none⟩).2
    rfl rfl rfl (Or.inl rfl) (fun h => Option.noConfusion h)⟩

lemma request_no_token (t : Transport) (st : Store) (path : String)
    (oa : Option String) (r : HttpResponse)
    (htok : strTruthy st.access = false) (h0 : t 0 = FetchOutcome.resp r) :
    request t ⟨st, []⟩ path oa =
      finishRequest ⟨st, [⟨API_BASE ++ path, oa⟩]⟩ r := by
  simp [request, doFetch, htok, h0]

/-- C4 — counterexample: without a stored access token, no Authorization
header goes out and no refresh is attempted (a single fetch, to the
requested path, with no auth — even though a refresh token is stored);
but the claim's final part "the 401 is surfaced directly as ApiError"
fails here: the JSON-`null` error body makes a TypeError escape
instead. -/
theorem no_token_passthrough_cex :
    request tAnonNull ⟨⟨none, some ("R1")⟩, []⟩ ("/v1/admin/users") none =
      (⟨⟨none, some ("R1")⟩, [⟨API_BASE ++ ("/v1/admin/users"), none⟩]⟩,
        Except.error JsError.typeError) ∧
    ∀ m k, (request tAnonNull ⟨⟨none, some ("R1")⟩, []⟩
        ("/v1/admin/users") none).2 ≠ Except.error (JsError.apiError m k) := by
  refine ⟨rfl, ?_⟩
  intro m k h
  have h1 : (request tAnonNull ⟨⟨none, some ("R1")⟩, []⟩
      ("/v1/admin/users") none).2 = Except.error JsError.typeError := rfl
  rw [h1] at h
  simp at h

/-- C4 (amended): a `request` made while no access token is stored (and
whose caller supplies no Authorization header of its own) issues exactly
one fetch, to the requested path, with no Authorization header — in
particular the refresh endpoint is never called, even when the response is
a 401; the 401 is surfaced directly as ApiError unless its body is the
JSON literal `null`, in which case a TypeError escapes. -/
theorem no_token_passthrough (t : Transport) (st : Store) (path : String)
    (r : HttpResponse)
    (htok : st.access = none) (h0 : t 0 = FetchOutcome.resp r) :
    (request t ⟨st, []⟩ path none).1.calls = [⟨API_BASE ++ path, none⟩] ∧
    (r.status = 401 → r.body ≠ some Json.null →
      ∃ m, (request t ⟨st, []⟩ path none).2 =
        Except.error (JsError.apiError m 401)) := by
  have hst : strTruthy st.access = false := by rw [htok]; rfl
  have hreq := request_no_token t st path none r hst h0
  constructor
  · rw [hreq, finishRequest_fst]
  · intro hs hnn
    have hok : responseOk r = false := by simp [responseOk, hs]
    obtain ⟨m, hfin⟩ :=
      finishRequest_err ⟨st, [⟨API_BASE ++ path, none⟩]⟩ r hok hnn
    exact ⟨m, by rw [hreq, hfin, hs]⟩

/-- Witness for C4: no token stored (refresh token present), 401 response:
one unauthenticated fetch, and ApiError(401). -/
theorem no_token_passthrough_witness :
    (request tAnon401 ⟨⟨none, some ("R1")⟩, []⟩
      ("/v1/admin/users") none).1.calls =
      [⟨API_BASE ++ ("/v1/admin/users"), none⟩] ∧
    ∃ m, (request tAnon401 ⟨⟨none, some ("R1")⟩, []⟩
      ("/v1/admin/users") none).2 = Except.error (JsError.apiError m 401) := by
  have h := no_token_passthrough tAnon401 ⟨none, some ("R1")⟩
    ("/v1/admin/users") ⟨401, ("Unauthorized"), none⟩ rfl rfl
  exact ⟨h.1, h.2 rfl (fun hx => Option.noConfusion hx)⟩

/-- C5 (code bug): the claim says the store is written only when a 2xx
refresh response contains an access token in the body. At this input the
response is 2xx but has no `access_token` field, yet
`localStorage.setItem("admin_access_token", data.access_token)` runs
unconditionally and JavaScript coerces `undefined` to the literal string
"undefined": the access-token entry is overwritten with "undefined" while
the refresh resolves to absent. -/
theorem store_write_condition_bug :
    doRefreshAccessToken tRefreshEmptyBody ⟨⟨some ("T1"), some ("R1")⟩, []⟩ =
      (⟨⟨some ("undefined"), some ("R1")⟩,
        [⟨API_BASE ++ ("/v1/auth/refresh"), none⟩]⟩, none) := rfl

/-- C6: Login privilege gate — when the credential-check step returns 2xx
(with a parseable non-null body) but the elevated-role verify endpoint
returns non-2xx, `login` fails with ApiError 403 carrying the
privilege-specific access-denied message (distinct from the
invalid-credentials message), and the credential store is unchanged — no
token is persisted. -/
theorem login_privilege_gate (t : Transport) (st : Store)
    (email pw : String) (res vres : HttpResponse) (d : Json)
    (h0 : t 0 = FetchOutcome.resp res) (hok : responseOk res = true)
    (hb : res.body = some d) (hd : d ≠ Json.null)
    (h1 : t 1 = FetchOutcome.resp vres) (hv : responseOk vres = false) :
    (ctxLogin t ⟨st, []⟩ email pw).2 =
      Except.error (JsError.apiError
        ("Access denied. This account does not have admin privileges.") 403) ∧
    (ctxLogin t ⟨st, []⟩ email pw).1.store = st ∧
    ("Access denied. This account does not have admin privileges." : String) ≠
      ("Invalid email or password.") := by
  have hlog : adminLogin t ⟨st, []⟩ email pw =
      (⟨st, [⟨API_BASE ++ ("/v1/auth/login"), none⟩,
         ⟨API_BASE ++ ("/v1/admin/auth/verify"),
           some ("Bearer " ++ jsStrOpt (d.getField ("access_token")))⟩]⟩,
       Except.error (JsError.apiError
         ("Access denied. This account does not have admin privileges.") 403)) := by
    simp [adminLogin, doFetch, h0, hok, hb, Json.isNull_eq_false hd, h1, hv]
  refine ⟨?_, ?_, by decide⟩
  · simp [ctxLogin, hlog]
  · simp [ctxLogin, hlog]

/-- Witness for C6 at a concrete execution. -/
theorem login_privilege_gate_witness :
    (ctxLogin tVerifyFail ⟨⟨none, none⟩, []⟩ ("a@b.com") ("pw")).2 =
      Except.error (JsError.apiError
        ("Access denied. This account does not have admin privileges.") 403) ∧
    (ctxLogin tVerifyFail ⟨⟨none, none⟩, []⟩ ("a@b.com") ("pw")).1.store =
      ⟨none, none⟩ ∧
    ("Access denied. This account does not have admin privileges." : String) ≠
      ("Invalid email or password.") :=
  login_privilege_gate tVerifyFail ⟨none, none⟩ ("a@b.com") ("pw")
    ⟨200, ("OK"), some (.obj [(("access_token"), .str ("A"))])⟩
    ⟨403, ("Forbidden"), some (.obj [])⟩
    (.obj [(("access_token"), .str ("A"))])
    rfl rfl rfl (fun h => Json.noConfusion h) rfl rfl

/-- C7 — counterexample: the claim says any status other than 400/401/403
yields the server-unavailable message; here the 500 body's `detail` field
("boom") is used instead, because the source throws
`AdminApiError(body.detail || serverUnavailable, status)`. -/
theorem login_status_mapping_cex :
    (adminLogin tLoginDetail ⟨⟨none, none⟩, []⟩ ("a@b.com") ("x")).2 =
      Except.error (JsError.apiError ("boom") 500) ∧
    (("boom") : String) ≠
      ("Authentication server unavailable. Try again later.") := by
  exact ⟨rfl, by decide⟩

/-- C7 (amended): for a non-2xx credential-check response, the raised
ApiError carries the response's HTTP status, and the message is: the fixed
invalid-credentials message for 401 or 400; the fixed account-disabled
message for 403; and for any other status, the error body's truthy
`detail` when the body is valid non-null JSON with one, the
server-unavailable message when the body is valid non-null JSON without
one, and the fixed string "Login failed" when the body is not valid JSON
(a JSON-`null` body raises a TypeError instead). The spec's concrete
scenario — status 401 ⇒ ApiError("Invalid email or password.", 401) —
is the first case. -/
theorem login_status_mapping (t : Transport) (st : Store)
    (email pw : String) (res : HttpResponse)
    (h0 : t 0 = FetchOutcome.resp res) (hok : responseOk res = false) :
    ((res.status = 401 ∨ res.status = 400) →
      (adminLogin t ⟨st, []⟩ email pw).2 =
        Except.error (JsError.apiError
          ("Invalid email or password.") res.status)) ∧
    (res.status = 403 →
      (adminLogin t ⟨st, []⟩ email pw).2 =
        Except.error (JsError.apiError
          ("This account has been disabled. Contact your administrator.")
          403)) ∧
    (res.status ≠ 401 → res.status ≠ 400 → res.status ≠ 403 →
      ((res.body = none →
        (adminLogin t ⟨st, []⟩ email pw).2 =
          Except.error (JsError.apiError ("Login failed") res.status)) ∧
       (∀ d, res.body = some d → d ≠ Json.null →
        (adminLogin t ⟨st, []⟩ email pw).2 =
          Except.error (JsError.apiError
            (if jsTruthy (d.getField ("detail"))
              then jsStrOpt (d.getField ("detail"))
              else "Authentication server unavailable. Try again later.")
            res.status)))) := by
  refine ⟨?_, ?_, ?_⟩
  · rintro (hs | hs) <;> simp [adminLogin, doFetch, h0, hok, hs]
  · intro hs
    simp [adminLogin, doFetch, h0, hok, hs]
  · intro h401 h400 h403
    refine ⟨?_, ?_⟩
    · intro hb
      simp [adminLogin, doFetch, h0, hok, h401, h400, h403, hb]
    · intro d hb hd
      simp [adminLogin, doFetch, h0, hok, h401, h400, h403, hb,
        Json.isNull_eq_false hd]

/-- Witness for C7: `login("a@b.com","x")` against a 401 login endpoint
rejects with ApiError("Invalid email or password.", 401). -/
theorem login_status_mapping_witness :
    (adminLogin tLogin401 ⟨⟨none, none⟩, []⟩ ("a@b.com") ("x")).2 =
      Except.error (JsError.apiError ("Invalid email or password.") 401) :=
  (login_status_mapping tLogin401 ⟨none, none⟩ ("a@b.com") ("x")
    ⟨401, ("Unauthorized"), none⟩ rfl rfl).1 (Or.inl rfl)

/-- C8 — counterexample: the claim says a valid-JSON body lacking `detail`
falls back to the HTTP status text; the source instead uses the literal
"Request failed" (`body.detail || "Request failed"`), which differs from
the status text "Internal Server Error". -/
theorem error_body_fallback_cex :
    (request tNoDetail ⟨⟨none, none⟩, []⟩ ("/v1/admin/users") none).2 =
      Except.error (JsError.apiError ("Request failed") 500) ∧
    (("Request failed") : String) ≠ ("Internal Server Error") := by
  exact ⟨rfl, by decide⟩

/-- C8 (amended): for a non-2xx final response, `request`'s error tail
raises ApiError with the HTTP status and a message that is: the body's
truthy `detail` (string-coerced) when the body is valid non-null JSON with
one; the literal "Request failed" when the body is valid non-null JSON
without a truthy `detail`; the HTTP status text when the body is not valid
JSON (or "Request failed" when that status text is empty); and a body
parsing to JSON `null` makes an uncaught TypeError escape instead of an
ApiError. The state is returned unchanged in every case. -/
theorem error_body_fallback (s : ExecState) (r : HttpResponse)
    (hok : responseOk r = false) :
    (r.body = none →
      finishRequest s r = (s, Except.error (JsError.apiError
        (if r.statusText != "" then r.statusText else "Request failed")
        r.status))) ∧
    (∀ d, r.body = some d → d ≠ Json.null →
      finishRequest s r = (s, Except.error (JsError.apiError
        (if jsTruthy (d.getField ("detail"))
          then jsStrOpt (d.getField ("detail")) else "Request failed")
        r.status))) ∧
    (r.body = some Json.null →
      finishRequest s r = (s, Except.error JsError.typeError)) := by
  refine ⟨?_, ?_, ?_⟩
  · intro hb
    simp [finishRequest, hok, hb]
  · intro d hb hd
    simp [finishRequest, hok, hb, Json.isNull_eq_false hd]
  · intro hb
    simp [finishRequest, hok, hb, Json.isNull]

/-- Witness for C8: a 500 with body carrying `detail` "boom" produces
ApiError("boom", 500) with the state unchanged. -/
theorem error_body_fallback_witness :
    finishRequest ⟨⟨none, none⟩, []⟩
        ⟨500, ("Internal Server Error"),
          some (.obj [(("detail"), .str ("boom"))])⟩ =
      (⟨⟨none, none⟩, []⟩, Except.error (JsError.apiError ("boom") 500)) :=
  (error_body_fallback ⟨⟨none, none⟩, []⟩
      ⟨500, ("Internal Server Error"),
        some (.obj [(("detail"), .str ("boom"))])⟩ rfl).2.1
    (.obj [(("detail"), .str ("boom"))]) rfl (fun h => Json.noConfusion h)

/-- C9: `request("/v1/admin/users")` with a stored access token, where the
first call returns 401, the refresh succeeds with token "T2", and the
retry returns 200 with `\x7bitems: [], total: 0\x7d`, resolves to that
body, and afterwards the stored access token equals the refreshed value
"T2" (three calls went out: the original with the old token, the refresh,
and the retry with the new token). -/
theorem refresh_retry_success :
    request tRefreshRetryOk ⟨⟨some ("T1"), some ("R1")⟩, []⟩
        ("/v1/admin/users") none =
      (⟨⟨some ("T2"), some ("R1")⟩,
        [⟨API_BASE ++ ("/v1/admin/users"), some ("Bearer T1")⟩,
         ⟨API_BASE ++ ("/v1/auth/refresh"), none⟩,
         ⟨API_BASE ++ ("/v1/admin/users"), some ("Bearer T2")⟩]⟩,
       Except.ok (.obj [(("items"), .arr []), (("total"), .num 0)])) := rfl

lemma doRefreshTry_store (t : Transport) (s : ExecState) :
    ((doRefreshTry t s).1.store.access = s.store.access ∨
      ∃ v, (doRefreshTry t s).1.store.access = some v) ∧
    ((doRefreshTry t s).1.store.refresh = s.store.refresh ∨
      ∃ w, (doRefreshTry t s).1.store.refresh = some w) := by
  simp only [doRefreshTry, doFetch]
  split
  · exact ⟨Or.inl rfl, Or.inl rfl⟩
  · split
    · split
      · exact ⟨Or.inl rfl, Or.inl rfl⟩
      · split
        · exact ⟨Or.inl rfl, Or.inl rfl⟩
        · split
          · exact ⟨Or.inr ⟨_, rfl⟩, Or.inr ⟨_, rfl⟩⟩
          · exact ⟨Or.inr ⟨_, rfl⟩, Or.inl rfl⟩
    · exact ⟨Or.inl rfl, Or.inl rfl⟩

lemma doRefresh_fst (t : Transport) (s : ExecState) :
    (doRefreshAccessToken t s).1 =
      if strTruthy s.store.refresh then (doRefreshTry t s).1 else s := by
  unfold doRefreshAccessToken
  split
  · rcases h : doRefreshTry t s with ⟨s1, v⟩
    cases v <;> simp [h]
  · rfl

lemma doRefresh_store (t : Transport) (s : ExecState) :
    ((doRefreshAccessToken t s).1.store.access = s.store.access ∨
      ∃ v, (doRefreshAccessToken t s).1.store.access = some v) ∧
    ((doRefreshAccessToken t s).1.store.refresh = s.store.refresh ∨
      ∃ w, (doRefreshAccessToken t s).1.store.refresh = some w) := by
  rw [doRefresh_fst]
  split
  · exact doRefreshTry_store t s
  · exact ⟨Or.inl rfl, Or.inl rfl⟩

lemma request_store (t : Transport) (s : ExecState) (p : String)
    (oa : Option String) :
    (request t s p oa).1.store = s.store ∨
    ∃ s1 : ExecState, (request t s p oa).1.store =
      (refreshAccessToken t s1).1.store ∧ s1.store = s.store := by
  simp only [request, doFetch]
  split
  · exact Or.inl rfl
  · by_cases hst : strTruthy s.store.access = true
    · simp only [hst, and_true, eq_self_iff_true, if_true]
      split
      · split
        · split
          · exact Or.inr
              ⟨⟨s.store, s.calls ++ [⟨API_BASE ++ p,
                some ("Bearer " ++ s.store.access.getD (""))⟩]⟩, rfl, rfl⟩
          · refine Or.inr
              ⟨⟨s.store, s.calls ++ [⟨API_BASE ++ p,
                some ("Bearer " ++ s.store.access.getD (""))⟩]⟩, ?_, rfl⟩
            rw [finishRequest_fst]
        · refine Or.inr
            ⟨⟨s.store, s.calls ++ [⟨API_BASE ++ p,
              some ("Bearer " ++ s.store.access.getD (""))⟩]⟩, ?_, rfl⟩
          rw [finishRequest_fst]
      · rw [finishRequest_fst]
        exact Or.inl rfl
    · simp only [hst, Bool.false_eq_true, and_false, if_false]
      rw [finishRequest_fst]
      exact Or.inl rfl

lemma request_store_isSome (t : Transport) (s : ExecState) (p : String)
    (oa : Option String) :
    (s.store.access.isSome = true →
      (request t s p oa).1.store.access.isSome = true) ∧
    (s.store.refresh.isSome = true →
      (request t s p oa).1.store.refresh.isSome = true) := by
  rcases request_store t s p oa with h | ⟨s1, h, hs1⟩
  · rw [h]
    exact ⟨id, id⟩
  · simp only [refreshAccessToken] at h
    constructor
    · intro ha
      rw [h]
      rcases (doRefresh_store t s1).1 with h2 | ⟨v, h2⟩
      · rw [h2, hs1]
        exact ha
      · rw [h2]
        rfl
    · intro ha
      rw [h]
      rcases (doRefresh_store t s1).2 with h2 | ⟨w, h2⟩
      · rw [h2, hs1]
        exact ha
      · rw [h2]
        rfl

/-- C10: No rollback of refreshed tokens on request failure. First,
`request` never removes a stored token on any path (for every transport,
state, path and caller header, a present access or refresh entry stays
present). Second, in every execution in which the refresh succeeds and
writes a new access token `a` and the retried call then fails, `request`
raises ApiError carrying the retried response's status while the
credential store still holds the refreshed token `a`. -/
theorem no_refresh_rollback (t : Transport) (st : Store) (path : String)
    (r1 rr r3 : HttpResponse) (d : Json) (a : String)
    (htok : strTruthy st.access = true)
    (h0 : t 0 = FetchOutcome.resp r1) (hs1 : r1.status = 401)
    (hrt : strTruthy st.refresh = true)
    (h1 : t 1 = FetchOutcome.resp rr) (hok1 : responseOk rr = true)
    (hb1 : rr.body = some d) (hd : d ≠ Json.null)
    (ha : d.getField ("access_token") = some (Json.str a)) (hne : a ≠ "")
    (h2 : t 2 = FetchOutcome.resp r3) (hok3 : responseOk r3 = false)
    (hnn : r3.body ≠ some Json.null) :
    (∀ (t2 : Transport) (s : ExecState) (p2 : String) (oa : Option String),
      (s.store.access.isSome = true →
        (request t2 s p2 oa).1.store.access.isSome = true) ∧
      (s.store.refresh.isSome = true →
        (request t2 s p2 oa).1.store.refresh.isSome = true)) ∧
    (∃ m, (request t ⟨st, []⟩ path none).2 =
      Except.error (JsError.apiError m r3.status)) ∧
    (request t ⟨st, []⟩ path none).1.store.access = some a := by
  have htk : jsTruthy (d.getField ("access_token")) = true := by
    rw [ha]
    simp [jsTruthy, Json.truthy, hne]
  obtain ⟨rt2, hreq⟩ := request_retry t st path r1 rr r3 d htok h0 hs1 hrt
    h1 hok1 hb1 hd htk h2
  obtain ⟨m, hfin⟩ := finishRequest_err _ r3 hok3 hnn
  refine ⟨fun t2 s p2 oa => request_store_isSome t2 s p2 oa, ⟨m, ?_⟩, ?_⟩
  · rw [hreq, hfin]
  · rw [hreq, finishRequest_fst, ha]
    simp [jsStrOpt, Json.jsStr]

/-- Witness for C10: after the failed retry, the error carries the
retry's status 500 and the store still holds the refreshed token. -/
theorem no_refresh_rollback_witness :
    (∃ m, (request tRetryFail ⟨⟨some ("T1"), some ("R1")⟩, []⟩
      ("/v1/admin/users") none).2 =
        Except.error (JsError.apiError m 500)) ∧
    (request tRetryFail ⟨⟨some ("T1"), some ("R1")⟩, []⟩
      ("/v1/admin/users") none).1.store.access = some ("T2") := by
  have h := no_refresh_rollback tRetryFail ⟨some ("T1"), some ("R1")⟩
    ("/v1/admin/users") ⟨401, ("Unauthorized"), none⟩
    ⟨200, ("OK"), some (.obj [(("access_token"), .str ("T2"))])⟩
    ⟨500, ("Internal Server Error"), none⟩
    (.obj [(("access_token"), .str ("T2"))]) ("T2")
    rfl rfl rfl rfl rfl rfl rfl (fun hx => Json.noConfusion hx) rfl
    (by decide) rfl rfl (fun hx => Option.noConfusion hx)
  exact ⟨h.2.1, h.2.2⟩

end AgentCostAdmin
